import Mathlib

/-!
Verification of the in-memory reference repository engine
(`adapters/stub/stub_repository.py`) and the multi-instance
schema/namespace derivation (`config.py`) of the trading-engine data
adapter.

Embedding conventions:
* Python `Decimal` and `datetime` values are modelled as exact rationals
  (`ℚ`); a `datetime` is its timestamp in seconds.  The current instant
  (`datetime.now(UTC)`) is passed explicitly as a `now : ℚ` argument to
  every cache operation that reads the clock.
* A Python `dict` is an insertion-ordered association list with unique
  keys (`Dict α`); `d[k] = v` replaces in place or appends, `d.pop(k,
  None)` removes, `d.values()` lists values in order.
* `Optional[X]` is `Option X`; str-enum fields are their string values.
* Methods that can raise are embedded in `Except String`; the `float(x)`
  casts at aggregate-return boundaries are outside the exact model, so
  those aggregates are given as their exact Decimal values.
* Strings manipulated character-wise by the config derivation are
  `List Char`.
-/

namespace TradingAdapter

/-- Python truthiness of an `Optional[str]` argument: `None` and the
empty string are falsy. -/
def pyTruthyStr : Option String → Bool
  | none => false
  | some s => !s.isEmpty

/-- Python `int(q)` on a real number: truncation toward zero. -/
def pyIntOfRat (q : ℚ) : Int :=
  if 0 ≤ q then ⌊q⌋ else ⌈q⌉

/-- Digit run accepted by Python `int(str)` after the first digit:
digits, with single underscores allowed between digits. -/
def parseDigitsAux (acc : Nat) : List Char → Option Nat
  | [] => some acc
  | '_' :: c :: cs =>
      if c.isDigit then parseDigitsAux (acc * 10 + (c.toNat - 48)) cs else none
  | ['_'] => none
  | c :: cs =>
      if c.isDigit then parseDigitsAux (acc * 10 + (c.toNat - 48)) cs else none

/-- Nonempty digit run (underscore separators allowed, no leading
underscore), as accepted by Python `int(str)`. -/
def parseDigits : List Char → Option Nat
  | [] => none
  | c :: cs => if c.isDigit then parseDigitsAux (c.toNat - 48) cs else none

/-- Whitespace stripped by Python `int(str)`. -/
def isPySpace (c : Char) : Bool :=
  c = ' ' || c = '\t' || c = '\n' || c = '\r' || c = '\x0b' || c = '\x0c'

/-- Python `int(s)` for a string `s`: optional surrounding whitespace,
optional sign, nonempty digit run; `none` models the `ValueError` raised
on anything else. -/
def pyParseInt (s : String) : Option Int :=
  let cs := ((s.toList.dropWhile isPySpace).reverse.dropWhile isPySpace).reverse
  match cs with
  | '+' :: rest => (parseDigits rest).map Int.ofNat
  | '-' :: rest => (parseDigits rest).map (fun n => -(n : Int))
  | rest => (parseDigits rest).map Int.ofNat

/-- Python `int(x or 0)` for `x : Optional[str]`: `None` and `""` are
falsy and give `0`; otherwise the string must parse as an integer, else
`ValueError`. -/
def pyIntOr0 : Option String → Except String Int
  | none => .ok 0
  | some s =>
      if s.isEmpty then .ok 0
      else
        match pyParseInt s with
        | some n => .ok n
        | none => .error ("ValueError: invalid literal for int() with base 10: " ++ s)

/-! ### Python dict as an insertion-ordered association list -/

/-- A Python `dict` keyed by strings. -/
abbrev Dict (α : Type) := List (String × α)

/-- Embedding of `d.get(k)` / the `k in d` test. -/
def dictLookup {α : Type} : Dict α → String → Option α
  | [], _ => none
  | (k, v) :: rest, key => if k = key then some v else dictLookup rest key

/-- Embedding of `d[k] = v`: replace in place if the key exists, else
append. -/
def dictSet {α : Type} : Dict α → String → α → Dict α
  | [], key, v => [(key, v)]
  | (k, w) :: rest, key, v =>
      if k = key then (k, v) :: rest else (k, w) :: dictSet rest key v

/-- Embedding of `d.pop(k, None)` / `del d[k]`: remove the entry if
present. -/
def dictPop {α : Type} : Dict α → String → Dict α
  | [], _ => []
  | (k, w) :: rest, key => if k = key then rest else (k, w) :: dictPop rest key

/-- Embedding of `d.values()`, in insertion order. -/
def dictValues {α : Type} (d : Dict α) : List α := d.map Prod.snd

/-- In-place mutation of the entry at `key` (`if key in d: mutate
d[key]`); a missing key is untouched. -/
def dictMapAt {α : Type} : Dict α → String → (α → α) → Dict α
  | [], _, _ => []
  | (k, v) :: rest, key, f =>
      if k = key then (k, f v) :: rest else (k, v) :: dictMapAt rest key f

/-! ### Python `str.split` and friends, on `List Char` -/

/-- Python `s.split(sep)` for a single-character separator (no
maxsplit): `""` gives `[""]`, separators delimit possibly-empty parts. -/
def pySplit (sep : Char) : List Char → List (List Char)
  | [] => [[]]
  | c :: cs =>
      if c = sep then [] :: pySplit sep cs
      else
        match pySplit sep cs with
        | [] => [[c]]
        | p :: ps => (c :: p) :: ps

/-- Python `s.split(sep, maxsplit)` (the string first, then the maximum
number of splits). -/
def pySplitMax (sep : Char) : List Char → Nat → List (List Char)
  | [], _ => [[]]
  | c :: cs, 0 => [c :: cs]
  | c :: cs, n+1 =>
      if c = sep then [] :: pySplitMax sep cs n
      else
        match pySplitMax sep cs (n+1) with
        | [] => [[c]]
        | p :: ps => (c :: p) :: ps

/-- Python `s.replace(a, b)` for single characters. -/
def pyReplaceChar (a b : Char) (s : List Char) : List Char :=
  s.map fun c => if c = a then b else c

/-- Python `s.lower()` (character-wise). -/
def pyLower (s : List Char) : List Char := s.map Char.toLower

/-! ### Domain models

Decimal fields are `ℚ`, datetimes are `ℚ` timestamps, str-enum fields
are their string values, `Optional[X]` is `Option X`.  `parameters`
(a JSON map) is kept opaque as a list of string keys paired with opaque
string payloads. -/

/-- Embedding of `models.strategy.Strategy`. -/
structure Strategy where
  strategy_id : String
  name : String
  strategy_type : String
  status : String
  parameters : List (String × String)
  instruments : List String
  max_position_size : Option ℚ
  max_daily_loss : Option ℚ
  max_leverage : Option ℚ
  total_pnl : ℚ
  daily_pnl : ℚ
  total_trades : Nat
  started_at : Option ℚ
  stopped_at : Option ℚ
  created_at : ℚ
  updated_at : ℚ
deriving Repr, DecidableEq

/-- Embedding of `models.order.Order`. -/
structure Order where
  order_id : String
  strategy_id : String
  instrument_id : String
  side : String
  order_type : String
  status : String
  time_in_force : String
  quantity : ℚ
  filled_quantity : ℚ
  remaining_quantity : ℚ
  price : Option ℚ
  stop_price : Option ℚ
  average_fill_price : Option ℚ
  exchange_order_id : Option String
  execution_venue : Option String
  commission : ℚ
  realized_pnl : Option ℚ
  created_at : ℚ
  submitted_at : Option ℚ
  filled_at : Option ℚ
  cancelled_at : Option ℚ
  updated_at : ℚ
  error_message : Option String
deriving Repr, DecidableEq

/-- Embedding of `models.trade.Trade`. -/
structure Trade where
  trade_id : String
  order_id : String
  strategy_id : String
  instrument_id : String
  side : String
  quantity : ℚ
  price : ℚ
  gross_value : ℚ
  commission : ℚ
  net_value : ℚ
  exchange_trade_id : Option String
  execution_venue : String
  liquidity_flag : Option String
  realized_pnl : Option ℚ
  executed_at : ℚ
  created_at : ℚ
  notes : Option String
deriving Repr, DecidableEq

/-- Embedding of `models.position.Position`. -/
structure Position where
  position_id : String
  strategy_id : String
  instrument_id : String
  quantity : ℚ
  average_entry_price : ℚ
  current_price : ℚ
  market_value : ℚ
  unrealized_pnl : ℚ
  realized_pnl : ℚ
  total_pnl : ℚ
  cost_basis : ℚ
  exposure : ℚ
  opened_at : ℚ
  last_updated : ℚ
  closed_at : Option ℚ
  created_at : ℚ
  updated_at : ℚ
  notes : Option String
deriving Repr, DecidableEq

/-! ### StubStrategiesRepository (state: `self._strategies`) -/

/-- Embedding of `StubStrategiesRepository.get_by_id`. -/
def strategies_get_by_id (ss : Dict Strategy) (strategy_id : String) : Option Strategy :=
  dictLookup ss strategy_id

/-- Embedding of `StubStrategiesRepository.update`: full replace only
when the id already exists. -/
def strategies_update (ss : Dict Strategy) (s : Strategy) : Dict Strategy :=
  if (dictLookup ss s.strategy_id).isSome then dictSet ss s.strategy_id s else ss

/-- Embedding of `StubStrategiesRepository.delete`:
`pop(strategy_id, None)`. -/
def strategies_delete (ss : Dict Strategy) (strategy_id : String) : Dict Strategy :=
  dictPop ss strategy_id

/-- Embedding of `StubStrategiesRepository.update_status`. -/
def strategies_update_status (ss : Dict Strategy) (strategy_id status : String) :
    Dict Strategy :=
  dictMapAt ss strategy_id (fun s => { s with status := status })

/-- Embedding of `StubStrategiesRepository.update_pnl` (the float
argument is a ℚ here; `Decimal(str(pnl))` is the identity in the exact
model). -/
def strategies_update_pnl (ss : Dict Strategy) (strategy_id : String) (pnl : ℚ) :
    Dict Strategy :=
  dictMapAt ss strategy_id (fun s => { s with total_pnl := pnl })

/-! ### StubOrdersRepository (state: `self._orders`) -/

/-- Embedding of `StubOrdersRepository.get_by_id`. -/
def orders_get_by_id (os : Dict Order) (order_id : String) : Option Order :=
  dictLookup os order_id

/-- Embedding of `StubOrdersRepository.update`: full replace only when
the id exists. -/
def orders_update (os : Dict Order) (o : Order) : Dict Order :=
  if (dictLookup os o.order_id).isSome then dictSet os o.order_id o else os

/-- Embedding of `StubOrdersRepository.update_status`. -/
def orders_update_status (os : Dict Order) (order_id status : String) : Dict Order :=
  dictMapAt os order_id (fun o => { o with status := status })

/-- The `active_statuses` set of `StubOrdersRepository.get_active_orders`. -/
def active_statuses : List String :=
  ["pending", "submitted", "accepted", "partially_filled"]

/-- Embedding of `StubOrdersRepository.get_active_orders`:
`if strategy_id:` — `None` and `""` both fall to the unscoped branch. -/
def get_active_orders (os : Dict Order) (strategy_id : Option String) : List Order :=
  if pyTruthyStr strategy_id then
    (dictValues os).filter
      (fun o => active_statuses.contains o.status && strategy_id == some o.strategy_id)
  else
    (dictValues os).filter (fun o => active_statuses.contains o.status)

/-- Embedding of `StubOrdersRepository.update_fill`. -/
def orders_update_fill (os : Dict Order) (order_id : String)
    (filled_quantity average_price : ℚ) : Dict Order :=
  dictMapAt os order_id (fun o =>
    { o with filled_quantity := filled_quantity, average_fill_price := some average_price })

/-- Embedding of `StubOrdersRepository.cancel`: sets the plain string
status `"cancelled"`. -/
def orders_cancel (os : Dict Order) (order_id : String) : Dict Order :=
  dictMapAt os order_id (fun o => { o with status := "cancelled" })

/-- Embedding of `StubOrdersRepository.delete`: `pop(order_id, None)`. -/
def orders_delete (os : Dict Order) (order_id : String) : Dict Order :=
  dictPop os order_id

/-- Names bound at module level in `adapters/stub/stub_repository.py`:
its imports (`datetime`, `UTC`, the typing names, `structlog`, the six
interface names, `ServiceInfo`, and the four model classes `Order`,
`Position`, `Strategy`, `Trade`), the module logger, and the six classes
the module defines.  `OrderStatus` is *not* among them. -/
def stubRepositoryModuleScope : List String :=
  ["datetime", "UTC", "Any", "Dict", "List", "Optional", "structlog",
   "CacheRepository", "OrdersRepository", "PositionsRepository",
   "ServiceDiscoveryRepository", "ServiceInfo", "StrategiesRepository",
   "TradesRepository", "Order", "Position", "Strategy", "Trade", "logger",
   "StubStrategiesRepository", "StubOrdersRepository", "StubTradesRepository",
   "StubPositionsRepository", "StubServiceDiscoveryRepository", "StubCacheRepository"]

/-- Python builtins consulted after module scope on a global name
lookup (the ones a repository method could plausibly mention). -/
def pythonBuiltins : List String :=
  ["int", "str", "float", "abs", "len", "list", "dict", "set", "sorted", "sum",
   "min", "max", "range", "print", "isinstance", "ValueError", "NameError"]

/-- A global name resolves iff it is bound in the module or is a builtin. -/
def resolvesGlobal (name : String) : Bool :=
  stubRepositoryModuleScope.contains name || pythonBuiltins.contains name

/-- Embedding of `StubOrdersRepository.cancel_order`: when the id exists
the body evaluates the global name `OrderStatus` (line 159 of
`stub_repository.py`); that name is looked up in module scope and
builtins and, unresolved, raises `NameError` before any field is
written.  When the id is absent the body is skipped and the call
returns normally. -/
def cancel_order (os : Dict Order) (order_id : String) (cancelled_at : ℚ) :
    Except String (Dict Order) :=
  if (dictLookup os order_id).isSome then
    if resolvesGlobal "OrderStatus" then
      .ok (dictMapAt os order_id
        (fun o => { o with status := "cancelled", cancelled_at := some cancelled_at }))
    else
      .error "NameError: name OrderStatus is not defined"
  else
    .ok os

/-! ### StubTradesRepository (state: `self._trades`) -/

/-- Embedding of `StubTradesRepository.get_by_id`. -/
def trades_get_by_id (ts : Dict Trade) (trade_id : String) : Option Trade :=
  dictLookup ts trade_id

/-- Embedding of `StubTradesRepository.get_by_strategy`. -/
def trades_get_by_strategy (ts : Dict Trade) (strategy_id : String) : List Trade :=
  (dictValues ts).filter (fun t => t.strategy_id == strategy_id)

/-- Embedding of `StubTradesRepository.calculate_total_volume`: filter
by strategy, then `executed_at >= from_date` and `executed_at <=
to_date` (each only when the optional datetime is supplied — a datetime
object is always truthy), then `sum(t.gross_value for t in trades)`.
The exact Decimal sum is returned; the Python `float(...)` cast at the
return boundary is outside the exact model. -/
def calculate_total_volume (ts : Dict Trade) (strategy_id : String)
    (from_date to_date : Option ℚ) : ℚ :=
  let trades := trades_get_by_strategy ts strategy_id
  let trades := match from_date with
    | some f => trades.filter (fun (t : Trade) => f ≤ t.executed_at)
    | none => trades
  let trades := match to_date with
    | some u => trades.filter (fun (t : Trade) => t.executed_at ≤ u)
    | none => trades
  (trades.map (fun t => t.gross_value)).sum

/-- Embedding of `StubTradesRepository.calculate_total_pnl`: same
filtering, summing `t.realized_pnl or 0` (`None` reads as 0; a zero
Decimal also falls to the `or` default, which is value-wise the same, so
this is `Option.getD 0`). -/
def calculate_total_pnl (ts : Dict Trade) (strategy_id : String)
    (from_date to_date : Option ℚ) : ℚ :=
  let trades := trades_get_by_strategy ts strategy_id
  let trades := match from_date with
    | some f => trades.filter (fun (t : Trade) => f ≤ t.executed_at)
    | none => trades
  let trades := match to_date with
    | some u => trades.filter (fun (t : Trade) => t.executed_at ≤ u)
    | none => trades
  (trades.map (fun t => t.realized_pnl.getD 0)).sum

/-! ### StubPositionsRepository (state: `self._positions`) -/

/-- Embedding of `StubPositionsRepository.get_by_id`. -/
def positions_get_by_id (ps : Dict Position) (position_id : String) : Option Position :=
  dictLookup ps position_id

/-- Embedding of `StubPositionsRepository.update`: full replace only
when the id exists. -/
def positions_update (ps : Dict Position) (p : Position) : Dict Position :=
  if (dictLookup ps p.position_id).isSome then dictSet ps p.position_id p else ps

/-- Embedding of `StubPositionsRepository.delete`:
`pop(position_id, None)`. -/
def positions_delete (ps : Dict Position) (position_id : String) : Dict Position :=
  dictPop ps position_id

/-- Embedding of `StubPositionsRepository.get_open_positions`:
`if strategy_id:` — `None` and `""` both fall to the unscoped branch;
the only filter is `quantity != 0` (`closed_at` is not consulted). -/
def get_open_positions (ps : Dict Position) (strategy_id : Option String) : List Position :=
  if pyTruthyStr strategy_id then
    (dictValues ps).filter
      (fun p => p.quantity != 0 && strategy_id == some p.strategy_id)
  else
    (dictValues ps).filter (fun p => p.quantity != 0)

/-- Embedding of `StubPositionsRepository.update_price`. -/
def positions_update_price (ps : Dict Position) (position_id : String)
    (current_price : ℚ) : Dict Position :=
  dictMapAt ps position_id (fun p => { p with current_price := current_price })

/-- Embedding of `StubPositionsRepository.update_pnl`. -/
def positions_update_pnl (ps : Dict Position) (position_id : String)
    (realized_pnl unrealized_pnl : ℚ) : Dict Position :=
  dictMapAt ps position_id
    (fun p => { p with realized_pnl := realized_pnl, unrealized_pnl := unrealized_pnl })

/-- Embedding of `StubPositionsRepository.calculate_total_exposure`:
sum of `p.exposure` over `get_open_positions(strategy_id)` (exact sum;
the `float(...)` cast at the return boundary is outside the exact
model). -/
def calculate_total_exposure (ps : Dict Position) (strategy_id : Option String) : ℚ :=
  ((get_open_positions ps strategy_id).map (fun p => p.exposure)).sum

/-- Embedding of `StubPositionsRepository.update_market_data`: sets
`current_price` and then recomputes the derived fields in order, each
from the already-updated ones. -/
def update_market_data (ps : Dict Position) (position_id : String)
    (current_price : ℚ) : Dict Position :=
  dictMapAt ps position_id (fun p =>
    let cp := current_price
    let mv := p.quantity * cp
    let upnl := (cp - p.average_entry_price) * p.quantity
    let tpnl := p.realized_pnl + upnl
    let ex := |p.quantity| * cp
    { p with current_price := cp, market_value := mv, unrealized_pnl := upnl,
             total_pnl := tpnl, exposure := ex })

/-- Embedding of `StubPositionsRepository.close_position`: sets
`closed_at` when the id exists (quantity is untouched). -/
def close_position (ps : Dict Position) (position_id : String) (closed_at : ℚ) :
    Dict Position :=
  dictMapAt ps position_id (fun p => { p with closed_at := some closed_at })

/-! ### StubCacheRepository

State: `self._cache : Dict[str, tuple[str, Optional[datetime]]]`.
Each operation that consults the clock takes `now : ℚ` explicitly. -/

/-- One `self._cache` entry: `(value, expires_at)`. -/
structure CacheEntry where
  value : String
  expires_at : Option ℚ
deriving Repr, DecidableEq

abbrev CacheState := Dict CacheEntry

/-- Embedding of `StubCacheRepository.get`: return the value if present
and (no expiry or `now < expires_at`); an expired entry is deleted as a
side effect and `None` is returned. -/
def cache_get (c : CacheState) (now : ℚ) (key : String) : Option String × CacheState :=
  match dictLookup c key with
  | some e =>
      match e.expires_at with
      | none => (some e.value, c)
      | some exp => if now < exp then (some e.value, c) else (none, dictPop c key)
  | none => (none, c)

/-- Embedding of `StubCacheRepository.set`: `if ttl:` (so `None` and `0`
are falsy) the expiry is `now + ttl`, else no expiry; the entry is
stored at `key`. -/
def cache_set (c : CacheState) (now : ℚ) (key value : String) (ttl : Option Int) :
    CacheState :=
  let expires_at : Option ℚ :=
    match ttl with
    | some t => if t ≠ 0 then some (now + (t : ℚ)) else none
    | none => none
  dictSet c key ⟨value, expires_at⟩

/-- Embedding of `StubCacheRepository.ttl`: `-2` if the key is missing,
`-1` if it has no expiry, otherwise `int(remaining) if remaining > 0
else -2` where `remaining = (expires_at - now).total_seconds()`. -/
def cache_ttl (c : CacheState) (now : ℚ) (key : String) : Int :=
  match dictLookup c key with
  | some e =>
      match e.expires_at with
      | none => -1
      | some exp =>
          let remaining := exp - now
          if 0 < remaining then pyIntOfRat remaining else -2
  | none => -2

/-- Embedding of `StubCacheRepository.increment`:
`int(current or 0) + amount` where `current = get(key)` (keeping the
eviction side effect of `get`), written back by a plain `set` with no
ttl; the unguarded `int(...)` conversion surfaces as `Except.error`
(Python `ValueError`). -/
def cache_increment (c : CacheState) (now : ℚ) (key : String) (amount : Int) :
    Except String (Int × CacheState) :=
  let r := cache_get c now key
  match pyIntOr0 r.1 with
  | .ok n =>
      let new_value := n + amount
      .ok (new_value, cache_set r.2 now key (toString new_value) none)
  | .error e => .error e

/-- Embedding of `StubCacheRepository.decrement`:
`increment(key, -amount)`. -/
def cache_decrement (c : CacheState) (now : ℚ) (key : String) (amount : Int) :
    Except String (Int × CacheState) :=
  cache_increment c now key (-amount)

/-! ### Config derivation (`config.py`), on `List Char` -/

/-- Embedding of `AdapterConfig._derive_schema_name`: singleton mode
takes `service_name.split('-')[0]`; multi-instance mode takes
`service_instance_name.replace('-', '_').lower()`. -/
def derive_schema_name (service_name service_instance_name : List Char) : List Char :=
  if service_name = service_instance_name then
    (pySplit '-' service_name).headD []
  else
    pyLower (pyReplaceChar '-' '_' service_instance_name)

/-- Embedding of `AdapterConfig._derive_redis_namespace`: singleton mode
takes `service_name.split('-')[0]`; multi-instance mode splits the
instance name with `split('-', 2)` and, with three parts, emits
`parts[0] + "_" + parts[1] + ":" + suffix` where `suffix` is
`parts[2].split('-', 1)[-1] if '-' in parts[2] else parts[2]`; with
fewer parts it falls back to `replace('-', '_')`. -/
def derive_redis_namespace (service_name service_instance_name : List Char) : List Char :=
  if service_name = service_instance_name then
    (pySplit '-' service_name).headD []
  else
    match pySplitMax '-' service_instance_name 2 with
    | p0 :: p1 :: p2 :: _ =>
        let suffix := if '-' ∈ p2 then (pySplitMax '-' p2 1).getLastD [] else p2
        p0 ++ '_' :: (p1 ++ ':' :: suffix)
    | _ => pyReplaceChar '-' '_' service_instance_name

/-- Embedding of `AdapterConfig.model_post_init` with no explicit
`postgres_schema`/`redis_namespace` overrides: an empty (falsy) instance
name is replaced by the service name, then both derivations run on the
result. -/
def derive_config (service_name service_instance_name : List Char) :
    List Char × List Char :=
  let inst := if service_instance_name = [] then service_name else service_instance_name
  (derive_schema_name service_name inst, derive_redis_namespace service_name inst)

/-- Modelled from the spec wording of claim C2 (schema rule): in
singleton mode the substring of `service_name` before its first hyphen;
otherwise the instance name with every hyphen replaced by underscore and
lower-cased in full. -/
def spec_schema_name (service_name inst : List Char) : List Char :=
  if service_name = inst then service_name.takeWhile (fun c => c != '-')
  else inst.map (fun c => if c = '-' then '_' else c.toLower)

/-- Modelled from the spec wording of claim C2: `rest` with its own
first hyphen-segment stripped when it contains a hyphen, unchanged
otherwise. -/
def spec_suffix (rest : List Char) : List Char :=
  if '-' ∈ rest then (rest.dropWhile (fun c => c != '-')).tail else rest

/-- Modelled from the spec wording of claim C2 (namespace rule):
singleton mode as for the schema; otherwise split the instance name on
hyphen at most twice into `[p0, p1, rest]` — with three parts the result
is `p0 + "_" + p1 + ":" + suffix` using `spec_suffix`, with fewer parts
the instance name with hyphens replaced by underscores and no colon. -/
def spec_namespace (service_name inst : List Char) : List Char :=
  if service_name = inst then service_name.takeWhile (fun c => c != '-')
  else
    match pySplitMax '-' inst 2 with
    | p0 :: p1 :: p2 :: _ => p0 ++ '_' :: (p1 ++ ':' :: spec_suffix p2)
    | _ => inst.map (fun c => if c = '-' then '_' else c)

/-- Modelled from the spec wording of claim C2: the full pipeline —
empty instance name replaced by the service name, then the schema and
namespace rules. -/
def spec_derive_config (service_name service_instance_name : List Char) :
    List Char × List Char :=
  let inst := if service_instance_name = [] then service_name else service_instance_name
  (spec_schema_name service_name inst, spec_namespace service_name inst)

/-- Spec form of the trade aggregation of claim C6: sum `val` over
exactly the trades of the strategy whose `executed_at` lies within the
optional bounds, inclusive on both ends, each bound applied only when
supplied. -/
def spec_trade_sum (ts : Dict Trade) (strategy_id : String)
    (from_date to_date : Option ℚ) (val : Trade → ℚ) : ℚ :=
  (((dictValues ts).filter (fun t =>
      t.strategy_id == strategy_id
      && from_date.all (fun f => f ≤ t.executed_at)
      && to_date.all (fun u => t.executed_at ≤ u))).map val).sum

/-! ### Concrete entities used by witnesses and counterexamples -/

/-- A concrete order. -/
def demoOrder : Order :=
  { order_id := "ord-1", strategy_id := "strat-1", instrument_id := "BTC-USD",
    side := "buy", order_type := "limit", status := "pending", time_in_force := "gtc",
    quantity := 1, filled_quantity := 0, remaining_quantity := 1, price := some 100,
    stop_price := none, average_fill_price := none, exchange_order_id := none,
    execution_venue := none, commission := 0, realized_pnl := none, created_at := 0,
    submitted_at := none, filled_at := none, cancelled_at := none, updated_at := 0,
    error_message := none }

/-- A concrete (short) position: quantity −2 at entry 50, realized 7. -/
def demoPosition : Position :=
  { position_id := "pos-1", strategy_id := "strat-1", instrument_id := "BTC-USD",
    quantity := -2, average_entry_price := 50, current_price := 60, market_value := -120,
    unrealized_pnl := -20, realized_pnl := 7, total_pnl := -13, cost_basis := 100,
    exposure := 120, opened_at := 0, last_updated := 0, closed_at := none,
    created_at := 0, updated_at := 0, notes := none }

/-- A concrete strategy. -/
def demoStrategy : Strategy :=
  { strategy_id := "strat-1", name := "S", strategy_type := "momentum", status := "active",
    parameters := [], instruments := ["BTC-USD"], max_position_size := none,
    max_daily_loss := none, max_leverage := none, total_pnl := 0, daily_pnl := 0,
    total_trades := 0, started_at := none, stopped_at := none, created_at := 0,
    updated_at := 0 }

/-! ### Dict lemmas -/

theorem dictLookup_pop_none {α : Type} (d : Dict α) (k : String)
    (h : dictLookup d k = none) : dictPop d k = d := by
  induction d with
  | nil => rfl
  | cons kv rest ih =>
      obtain ⟨k', v⟩ := kv
      by_cases hk : k' = k
      · simp [dictLookup, hk] at h
      · simp [dictLookup, hk] at h
        simp [dictPop, hk, ih h]

theorem dictMapAt_none {α : Type} (d : Dict α) (k : String) (f : α → α)
    (h : dictLookup d k = none) : dictMapAt d k f = d := by
  induction d with
  | nil => rfl
  | cons kv rest ih =>
      obtain ⟨k', v⟩ := kv
      by_cases hk : k' = k
      · simp [dictLookup, hk] at h
      · simp [dictLookup, hk] at h
        simp [dictMapAt, hk, ih h]

theorem dictLookup_mapAt_self {α : Type} (d : Dict α) (k : String) (f : α → α) :
    dictLookup (dictMapAt d k f) k = (dictLookup d k).map f := by
  induction d with
  | nil => rfl
  | cons kv rest ih =>
      obtain ⟨k', v⟩ := kv
      by_cases hk : k' = k
      · simp [dictMapAt, dictLookup, hk]
      · simp [dictMapAt, dictLookup, hk, ih]

theorem dictLookup_mapAt_other {α : Type} (d : Dict α) (k k' : String) (f : α → α)
    (h : k' ≠ k) : dictLookup (dictMapAt d k f) k' = dictLookup d k' := by
  induction d with
  | nil => rfl
  | cons kv rest ih =>
      obtain ⟨k0, v⟩ := kv
      have hkk' : k ≠ k' := fun hc => h hc.symm
      by_cases hk : k0 = k
      · subst hk
        simp [dictMapAt, dictLookup, hkk']
      · by_cases hk' : k0 = k'
        · subst hk'
          simp [dictMapAt, dictLookup, hk]
        · simp [dictMapAt, dictLookup, hk, hk', ih]

theorem dictLookup_set_self {α : Type} (d : Dict α) (k : String) (v : α) :
    dictLookup (dictSet d k v) k = some v := by
  induction d with
  | nil => simp [dictSet, dictLookup]
  | cons kv rest ih =>
      obtain ⟨k', w⟩ := kv
      by_cases hk : k' = k
      · simp [dictSet, dictLookup, hk]
      · simp [dictSet, dictLookup, hk, ih]

/-! ### Split lemmas -/

theorem pySplit_ne_nil (sep : Char) (s : List Char) : pySplit sep s ≠ [] := by
  induction s with
  | nil => simp [pySplit]
  | cons c cs ih =>
      by_cases hc : c = sep
      · simp [pySplit, hc]
      · simp only [pySplit, if_neg hc]
        cases h : pySplit sep cs <;> simp

theorem pySplit_headD (sep : Char) (s : List Char) :
    (pySplit sep s).headD [] = s.takeWhile (fun c => c != sep) := by
  induction s with
  | nil => rfl
  | cons c cs ih =>
      by_cases hc : c = sep
      · simp [pySplit, hc, List.takeWhile_cons]
      · cases h : pySplit sep cs with
        | nil => exact absurd h (pySplit_ne_nil sep cs)
        | cons p ps =>
            rw [h] at ih
            simp only [pySplit, if_neg hc, h, List.headD_cons, List.takeWhile_cons] at ih ⊢
            simp [bne_iff_ne, hc, ← ih]

theorem pySplitMax_zero (sep : Char) (s : List Char) : pySplitMax sep s 0 = [s] := by
  cases s <;> rfl

theorem pySplitMax_one (sep : Char) (s : List Char) :
    pySplitMax sep s 1 =
      if sep ∈ s then
        [s.takeWhile (fun c => c != sep), (s.dropWhile (fun c => c != sep)).tail]
      else [s] := by
  induction s with
  | nil => simp [pySplitMax]
  | cons c cs ih =>
      by_cases hc : c = sep
      · subst hc
        simp [pySplitMax, pySplitMax_zero, List.takeWhile_cons, List.dropWhile_cons]
      · by_cases hm : sep ∈ cs
        · rw [if_pos hm] at ih
          simp only [pySplitMax, if_neg hc, ih]
          have hmem : sep ∈ c :: cs := List.mem_cons_of_mem c hm
          have hcs : ¬ sep = c := fun h => hc h.symm
          simp [hmem, List.takeWhile_cons, List.dropWhile_cons, bne_iff_ne, hc, hcs]
        · rw [if_neg hm] at ih
          simp only [pySplitMax, if_neg hc, ih]
          have hcs : ¬ sep = c := fun h => hc h.symm
          have hmem : sep ∉ c :: cs := by simp [hm, hcs]
          simp [hmem]

theorem lower_replace_eq_map (s : List Char) :
    pyLower (pyReplaceChar '-' '_' s) =
      s.map (fun c => if c = '-' then '_' else c.toLower) := by
  simp only [pyLower, pyReplaceChar, List.map_map]
  congr 1
  funext c
  by_cases hc : c = '-' <;> simp [hc, Function.comp]

/-! ### Claim theorems -/

/-- C1: `cancel_order` on a present order id evaluates the unresolved
global name `OrderStatus` and raises `NameError` instead of setting
`status`/`cancelled_at` and returning normally — the name is neither
imported by `stub_repository.py` nor a builtin; on an absent id the call
is a no-op as claimed.  (This theorem evaluates the code at the failing
input of the code-bug record.) -/
theorem C1_cancel_order_name_error :
    resolvesGlobal "OrderStatus" = false ∧
    cancel_order [("ord-1", demoOrder)] "ord-1" 42 =
      .error "NameError: name OrderStatus is not defined" ∧
    cancel_order [("ord-1", demoOrder)] "missing" 42 = .ok [("ord-1", demoOrder)] :=
  ⟨rfl, rfl, rfl⟩

/-- C2: for every pair of service name and instance name (no explicit
overrides), the schema/namespace derivation implemented by `config.py`
(`derive_config`) agrees with the rules as worded in the spec
(`spec_derive_config`): the empty instance name is replaced by the
service name; in singleton mode both results are the substring of the
service name before its first hyphen; otherwise the schema is the
instance name hyphen→underscore lower-cased in full, and the namespace
follows the split-at-most-twice rule with the first hyphen-segment of
`rest` stripped inside the suffix. -/
theorem C2_config_derivation_matches_spec
    (service_name service_instance_name : List Char) :
    derive_config service_name service_instance_name =
      spec_derive_config service_name service_instance_name := by
  unfold derive_config spec_derive_config
  refine Prod.ext ?_ ?_
  · unfold derive_schema_name spec_schema_name
    by_cases hsing :
        service_name = if service_instance_name = [] then service_name else service_instance_name
    · simp only [← hsing, if_pos rfl, eq_self_iff_true, if_true, pySplit_headD]
    · simp only [if_neg hsing, lower_replace_eq_map]
  · unfold derive_redis_namespace spec_namespace
    by_cases hsing :
        service_name = if service_instance_name = [] then service_name else service_instance_name
    · simp only [← hsing, if_pos rfl, eq_self_iff_true, if_true, pySplit_headD]
    · simp only [if_neg hsing]
      cases hm :
          pySplitMax '-' (if service_instance_name = [] then service_name else service_instance_name) 2 with
      | nil => rfl
      | cons p0 rest =>
          cases rest with
          | nil => rfl
          | cons p1 rest2 =>
              cases rest2 with
              | nil => rfl
              | cons p2 tail =>
                  have hsuf :
                      (if '-' ∈ p2 then (pySplitMax '-' p2 1).getLast?.getD [] else p2) =
                        spec_suffix p2 := by
                    by_cases hp2 : '-' ∈ p2
                    · simp [spec_suffix, hp2, pySplitMax_one]
                    · simp [spec_suffix, hp2]
                  simp [hsuf]

/-- C3 (counterexample): the claim says `ttl` never returns 0, but a key
whose expiry lies half a second in the future reports exactly 0:
`remaining = 0.5 > 0`, so the `-2` branch is not taken and
`int(0.5) = 0` is returned. -/
theorem C3_counterexample_ttl_returns_zero :
    cache_ttl [("k", ⟨"v", some (1/2 : ℚ)⟩)] 0 "k" = 0 := by
  norm_num [cache_ttl, dictLookup, pyIntOfRat]

/-- C3 (amended): `ttl(k)` returns −2 when `k` is absent or its
remaining time is ≤ 0 (so a stale entry reports −2), −1 when present
with no expiry, and otherwise the remaining seconds floored — a value
that is ≥ 0 and in particular 0 whenever less than one second remains,
so `ttl` can return 0. -/
theorem C3_ttl_amended (c : CacheState) (now : ℚ) (k : String) :
    (dictLookup c k = none → cache_ttl c now k = -2) ∧
    (∀ v, dictLookup c k = some ⟨v, none⟩ → cache_ttl c now k = -1) ∧
    (∀ v exp, dictLookup c k = some ⟨v, some exp⟩ → exp - now ≤ 0 →
        cache_ttl c now k = -2) ∧
    (∀ v exp, dictLookup c k = some ⟨v, some exp⟩ → 0 < exp - now →
        cache_ttl c now k = ⌊exp - now⌋ ∧ 0 ≤ cache_ttl c now k) := by
  refine ⟨fun h => by simp [cache_ttl, h], fun v h => by simp [cache_ttl, h],
    fun v exp h hle => by simp [cache_ttl, h, not_lt.mpr hle], fun v exp h hpos => ?_⟩
  have h0 : (0:ℚ) ≤ exp - now := le_of_lt hpos
  constructor
  · simp [cache_ttl, h, hpos, pyIntOfRat, h0]
  · simp [cache_ttl, h, hpos, pyIntOfRat, h0]
    exact Int.floor_nonneg.mpr h0

/-- C3 (amended, witness): a key with 5 whole seconds remaining reports
`⌊5⌋ = 5 ≥ 0`. -/
theorem C3_ttl_amended_witness :
    cache_ttl [("k", ⟨"v", some (5 : ℚ)⟩)] 0 "k" = ⌊(5 : ℚ) - 0⌋ ∧
    0 ≤ cache_ttl [("k", ⟨"v", some (5 : ℚ)⟩)] 0 "k" :=
  (C3_ttl_amended [("k", ⟨"v", some (5 : ℚ)⟩)] 0 "k").2.2.2 "v" 5 rfl (by norm_num)

/-- C4: for a present position id, `update_market_data(id, p)` stores
the position with `current_price = p`, `market_value = quantity × p`,
`unrealized_pnl = (p − average_entry_price) × quantity`, `total_pnl =
realized_pnl + unrealized_pnl`, `exposure = |quantity| × p`, and every
other field of that position (and every other entry) unchanged; a
missing id is a no-op. -/
theorem C4_update_market_data_recomputes (ps : Dict Position) (pid : String) (price : ℚ) :
    (∀ p, dictLookup ps pid = some p →
      dictLookup (update_market_data ps pid price) pid = some
        { p with
          current_price := price,
          market_value := p.quantity * price,
          unrealized_pnl := (price - p.average_entry_price) * p.quantity,
          total_pnl := p.realized_pnl + (price - p.average_entry_price) * p.quantity,
          exposure := |p.quantity| * price } ∧
      ∀ pid2, pid2 ≠ pid →
        dictLookup (update_market_data ps pid price) pid2 = dictLookup ps pid2) ∧
    (dictLookup ps pid = none → update_market_data ps pid price = ps) := by
  refine ⟨fun p hp => ⟨?_, fun pid2 hne => dictLookup_mapAt_other _ _ _ _ hne⟩,
    fun h => dictMapAt_none _ _ _ h⟩
  simp [update_market_data, dictLookup_mapAt_self, hp]

/-- C4 (witness): the demo short position (quantity −2, entry 50,
realized 7) repriced at 55 gets market value −110, unrealized −10,
total −3 and exposure 110. -/
theorem C4_update_market_data_witness :
    dictLookup [("pos-1", demoPosition)] "pos-1" = some demoPosition ∧
    dictLookup (update_market_data [("pos-1", demoPosition)] "pos-1" 55) "pos-1" = some
      { demoPosition with
        current_price := 55,
        market_value := -110,
        unrealized_pnl := -10,
        total_pnl := -3,
        exposure := 110 } := by
  refine ⟨rfl, ?_⟩
  have h := ((C4_update_market_data_recomputes [("pos-1", demoPosition)] "pos-1" 55).1
    demoPosition rfl).1
  rw [h]
  norm_num [demoPosition]

/-- C5 (counterexample): a position closed by `close_position` (so with
`closed_at` set) but with non-zero quantity is still returned by
`get_open_positions`, contradicting the claim that every returned
position has `closed_at` unset. -/
theorem C5_counterexample_closed_position_returned :
    get_open_positions (close_position [("pos-1", demoPosition)] "pos-1" 99) none =
      [{ demoPosition with closed_at := some 99 }] ∧
    ({ demoPosition with closed_at := some 99 } : Position).closed_at ≠ none :=
  ⟨rfl, by simp⟩

/-- C5 (amended): `get_open_positions` returns exactly the stored
positions with non-zero quantity (under a non-empty strategy scope,
additionally those of that strategy), regardless of `closed_at` — in
particular a position whose `closed_at` was set by `close_position` is
still returned while its quantity is non-zero. -/
theorem C5_open_positions_amended (ps : Dict Position) (sid : String) (p : Position)
    (hs : sid ≠ "") :
    (p ∈ get_open_positions ps none ↔ p ∈ dictValues ps ∧ p.quantity ≠ 0) ∧
    (p ∈ get_open_positions ps (some sid) ↔
      p ∈ dictValues ps ∧ p.quantity ≠ 0 ∧ sid = p.strategy_id) := by
  have hemp : sid.isEmpty = false :=
    Bool.eq_false_iff.mpr (fun hh => hs ((String.isEmpty_iff sid).mp hh))
  have htr : pyTruthyStr (some sid) = true := by simp [pyTruthyStr, hemp]
  constructor
  · show p ∈ (dictValues ps).filter (fun q => q.quantity != 0) ↔ _
    rw [List.mem_filter]
    simp [bne_iff_ne]
  · simp only [get_open_positions, htr, if_true]
    rw [List.mem_filter]
    simp [bne_iff_ne, and_assoc]

/-- C5 (amended, witness): concrete instantiation at the demo position
and the scope `"strat-1"`. -/
theorem C5_open_positions_amended_witness :
    (demoPosition ∈ get_open_positions [("pos-1", demoPosition)] none ↔
      demoPosition ∈ dictValues [("pos-1", demoPosition)] ∧ demoPosition.quantity ≠ 0) ∧
    (demoPosition ∈ get_open_positions [("pos-1", demoPosition)] (some "strat-1") ↔
      demoPosition ∈ dictValues [("pos-1", demoPosition)] ∧ demoPosition.quantity ≠ 0 ∧
        "strat-1" = demoPosition.strategy_id) :=
  C5_open_positions_amended [("pos-1", demoPosition)] "strat-1" demoPosition (by decide)

/-- C6: `calculate_total_volume` (resp. `calculate_total_pnl`) equals
the exact sum of `gross_value` (resp. `realized_pnl` with null read as
zero) over exactly the trades of the given strategy whose `executed_at`
lies in the range, inclusive on both ends, each bound applied only when
supplied. -/
theorem C6_trade_aggregation_range_inclusive (ts : Dict Trade) (sid : String)
    (fromOpt toOpt : Option ℚ) :
    calculate_total_volume ts sid fromOpt toOpt =
      spec_trade_sum ts sid fromOpt toOpt (fun t => t.gross_value) ∧
    calculate_total_pnl ts sid fromOpt toOpt =
      spec_trade_sum ts sid fromOpt toOpt (fun t => t.realized_pnl.getD 0) := by
  constructor <;>
    cases fromOpt <;> cases toOpt <;>
      simp [calculate_total_volume, calculate_total_pnl, spec_trade_sum,
        trades_get_by_strategy, List.filter_filter, Bool.and_comm, Bool.and_left_comm,
        Bool.and_assoc]

/-- C7: `increment(k, a)` reads the current cached value as an integer
(a missing key reads as 0), adds `a`, writes the result back by a plain
`set` with no ttl — so the stored entry has no expiry, clearing any
prior one — and returns the new integer; `decrement(k, a)` is
`increment(k, -a)`. -/
theorem C7_increment_reads_adds_writes (c : CacheState) (now : ℚ) (k : String)
    (a n : Int) (h : pyIntOr0 (cache_get c now k).1 = .ok n) :
    cache_increment c now k a =
      .ok (n + a, cache_set (cache_get c now k).2 now k (toString (n + a)) none) ∧
    dictLookup (cache_set (cache_get c now k).2 now k (toString (n + a)) none) k =
      some ⟨toString (n + a), none⟩ ∧
    ((cache_get c now k).1 = none → n = 0) ∧
    cache_decrement c now k a = cache_increment c now k (-a) := by
  refine ⟨by simp [cache_increment, h], by simp [cache_set, dictLookup_set_self],
    fun hn => ?_, rfl⟩
  rw [hn] at h
  simpa [pyIntOr0] using h.symm

/-- C7 (witness): on a key holding `"10"`, `increment("c", 5)` returns
15 and stores `"15"` with no expiry; `decrement("c", 3)` on the
resulting state returns 12. -/
theorem C7_increment_witness :
    pyIntOr0 (cache_get [("c", ⟨"10", none⟩)] 0 "c").1 = .ok 10 ∧
    cache_increment [("c", ⟨"10", none⟩)] 0 "c" 5 = .ok (15, [("c", ⟨"15", none⟩)]) ∧
    cache_decrement [("c", ⟨"15", none⟩)] 0 "c" 3 = .ok (12, [("c", ⟨"12", none⟩)]) :=
  ⟨rfl,
    by simpa using (C7_increment_reads_adds_writes [("c", ⟨"10", none⟩)] 0 "c" 5 10 rfl).1,
    rfl⟩

/-- C8: in every entity repository a read of a missing id returns the
absent value (no error), and every mutation targeting a missing id —
update, delete, status/fill/price/P&L updates, market-data refresh,
cancel and close — returns normally and leaves the repository state
unchanged. -/
theorem C8_missing_id_semantics
    (ss : Dict Strategy) (os : Dict Order) (ts : Dict Trade) (ps : Dict Position)
    (s : Strategy) (o : Order) (p : Position)
    (sid oid tid pid status : String) (q ap pnl rp up price t : ℚ)
    (hs : dictLookup ss sid = none) (ho : dictLookup os oid = none)
    (ht : dictLookup ts tid = none) (hp : dictLookup ps pid = none)
    (hs2 : dictLookup ss s.strategy_id = none)
    (ho2 : dictLookup os o.order_id = none)
    (hp2 : dictLookup ps p.position_id = none) :
    strategies_get_by_id ss sid = none ∧
    strategies_update ss s = ss ∧
    strategies_delete ss sid = ss ∧
    strategies_update_status ss sid status = ss ∧
    strategies_update_pnl ss sid pnl = ss ∧
    orders_get_by_id os oid = none ∧
    orders_update os o = os ∧
    orders_update_status os oid status = os ∧
    orders_update_fill os oid q ap = os ∧
    orders_cancel os oid = os ∧
    orders_delete os oid = os ∧
    cancel_order os oid t = .ok os ∧
    trades_get_by_id ts tid = none ∧
    positions_get_by_id ps pid = none ∧
    positions_update ps p = ps ∧
    positions_delete ps pid = ps ∧
    positions_update_price ps pid price = ps ∧
    positions_update_pnl ps pid rp up = ps ∧
    update_market_data ps pid price = ps ∧
    close_position ps pid t = ps := by
  refine ⟨hs, ?_, dictLookup_pop_none _ _ hs, dictMapAt_none _ _ _ hs,
    dictMapAt_none _ _ _ hs, ho, ?_, dictMapAt_none _ _ _ ho, dictMapAt_none _ _ _ ho,
    dictMapAt_none _ _ _ ho, dictLookup_pop_none _ _ ho, ?_, ht, hp, ?_,
    dictLookup_pop_none _ _ hp, dictMapAt_none _ _ _ hp, dictMapAt_none _ _ _ hp,
    dictMapAt_none _ _ _ hp, dictMapAt_none _ _ _ hp⟩
  · simp [strategies_update, hs2]
  · simp [orders_update, ho2]
  · simp [cancel_order, ho]
  · simp [positions_update, hp2]

/-- C8 (witness): all missing-id operations on empty repositories with
id `"x"` (absent) return the absent value or the unchanged state. -/
theorem C8_missing_id_witness :
    strategies_get_by_id [] "x" = none ∧
    strategies_update [] demoStrategy = [] ∧
    strategies_delete [] "x" = [] ∧
    strategies_update_status [] "x" "paused" = [] ∧
    strategies_update_pnl [] "x" 1 = [] ∧
    orders_get_by_id [] "x" = none ∧
    orders_update [] demoOrder = [] ∧
    orders_update_status [] "x" "filled" = [] ∧
    orders_update_fill [] "x" 1 2 = [] ∧
    orders_cancel [] "x" = [] ∧
    orders_delete [] "x" = [] ∧
    cancel_order [] "x" 3 = .ok [] ∧
    trades_get_by_id [] "x" = none ∧
    positions_get_by_id [] "x" = none ∧
    positions_update [] demoPosition = [] ∧
    positions_delete [] "x" = [] ∧
    positions_update_price [] "x" 4 = [] ∧
    positions_update_pnl [] "x" 5 6 = [] ∧
    update_market_data [] "x" 7 = [] ∧
    close_position [] "x" 8 = [] :=
  C8_missing_id_semantics [] [] [] [] demoStrategy demoOrder demoPosition "x" "x" "x" "x"
    "filled" 1 2 1 5 6 7 8 rfl rfl rfl rfl rfl rfl rfl

/-- C9: on a key holding a non-empty string that does not parse as an
integer — here `"[1]"`, exactly what `set_json` writes for the JSON
value `[1]` — `increment` and `decrement` hit the unguarded `int(...)`
conversion and raise `ValueError` instead of returning a value. -/
theorem C9_increment_parse_error :
    cache_increment [("k", ⟨"[1]", none⟩)] 0 "k" 1 =
      .error "ValueError: invalid literal for int() with base 10: [1]" ∧
    cache_decrement [("k", ⟨"[1]", none⟩)] 0 "k" 1 =
      .error "ValueError: invalid literal for int() with base 10: [1]" ∧
    "[1]" ≠ "" ∧ pyParseInt "[1]" = none :=
  ⟨rfl, rfl, by decide, rfl⟩

/-- C10: calling `get_active_orders`, `get_open_positions` or
`calculate_total_exposure` with the empty string as `strategy_id`
behaves exactly as the unscoped call — the empty string is falsy in the
`if strategy_id:` guard, so no strategy filter is applied. -/
theorem C10_empty_strategy_id_unscoped (os : Dict Order) (ps : Dict Position) :
    get_active_orders os (some "") = get_active_orders os none ∧
    get_open_positions ps (some "") = get_open_positions ps none ∧
    calculate_total_exposure ps (some "") = calculate_total_exposure ps none :=
  ⟨rfl, rfl, rfl⟩

end TradingAdapter